import Mathlib

/-!
Shallow embedding of the Money-Manager balance-recalculation and
budget-aggregation engine (src/utils/financeLogic.ts and the derived-view
math of src/components/BudgetManager.tsx), with theorems settling the
specification claims about it.

Modelling conventions:
* JavaScript numbers carrying money are modelled as rationals (`Rat`).
* A transaction date is modelled by the three observations the code makes
  of it: `new Date(d).getTime()` (used only for sorting), `getMonth()`
  (0-11) and `getFullYear()`.
* `Array.prototype.sort` (stable since ES2019) with the comparator
  `(a, b) => time a - time b` is modelled by `List.mergeSort` on `time ≤ time`,
  which is likewise a stable sort by that key.
* Optional fields (`toAccountId?`, `categoryId?`, `subCategoryId?`,
  `dueDate?`) are `Option String`; the JS strict equality
  `undefined === s` being false for a string `s` is mirrored by
  `none = some s` being false, and the coalescing `tx.categoryId || ''`
  by `Option.getD "" `.
-/

namespace MoneyManager

/-- The `AccountType` enum of src/types.ts. -/
inductive AccountType
  | SAVINGS
  | CURRENT
  | CASH
  | CREDIT_CARD
  | LOAN
  | EMI
deriving DecidableEq

/-- The `TransactionType` enum of src/types.ts. -/
inductive TransactionType
  | EXPENSE
  | INCOME
  | TRANSFER
deriving DecidableEq

/-- The `'ACTIVE' | 'INACTIVE'` status union of `Account` in src/types.ts. -/
inductive AccountStatus
  | ACTIVE
  | INACTIVE
deriving DecidableEq

/-- A calendar date as observed by the engine: the epoch time used by the
sort comparator, and the month (0-11) / year used by the category rollup. -/
structure SDate where
  time : Int
  month : Nat
  year : Int
deriving DecidableEq

/-- The `Category` interface of src/types.ts. -/
structure Category where
  id : String
  name : String
  parentId : Option String
  type : TransactionType
deriving DecidableEq

/-- The `Account` interface of src/types.ts. -/
structure Account where
  id : String
  name : String
  type : AccountType
  openingBalance : Rat
  currentBalance : Rat
  status : AccountStatus
  dueDate : Option String
deriving DecidableEq

/-- The `Transaction` interface of src/types.ts. -/
structure Transaction where
  id : String
  date : SDate
  amount : Rat
  type : TransactionType
  fromAccountId : String
  toAccountId : Option String
  categoryId : Option String
  subCategoryId : Option String
  notes : String
deriving DecidableEq

/-- The `period: 'MONTHLY'` discriminator of `Budget` in src/types.ts. -/
inductive BudgetPeriod
  | MONTHLY
deriving DecidableEq

/-- The `Budget` interface of src/types.ts. -/
structure Budget where
  id : String
  categoryId : String
  amount : Rat
  period : BudgetPeriod
deriving DecidableEq

/-! ## Balance engine (src/utils/financeLogic.ts, `recalculateBalances`) -/

/-- The filter `tx.fromAccountId === account.id || tx.toAccountId === account.id`
of `recalculateBalances`. -/
def isRelevant (account : Account) (tx : Transaction) : Bool :=
  tx.fromAccountId == account.id || tx.toAccountId == some account.id

/-- The `relevantTxs` list of `recalculateBalances`. -/
def relevantTxs (account : Account) (transactions : List Transaction) : List Transaction :=
  transactions.filter (isRelevant account)

/-- The sort comparator `(a, b) => new Date(a.date).getTime() - new Date(b.date).getTime()`. -/
def dateLE (a b : Transaction) : Bool :=
  a.date.time ≤ b.date.time

/-- The `sortedTxs` list of `recalculateBalances`: a stable ascending sort of the
relevant transactions by date. -/
def sortedTxs (account : Account) (transactions : List Transaction) : List Transaction :=
  (relevantTxs account transactions).mergeSort dateLE

/-- One step of the `sortedTxs.forEach` fold of `recalculateBalances`:
the new running balance after applying one transaction. -/
def applyTx (account : Account) (balance : Rat) (tx : Transaction) : Rat :=
  if tx.type = TransactionType.INCOME then
    if account.type = AccountType.CREDIT_CARD then
      min (balance + tx.amount) 0
    else
      balance + tx.amount
  else if tx.type = TransactionType.EXPENSE then
    balance - tx.amount
  else if tx.type = TransactionType.TRANSFER then
    if tx.fromAccountId = account.id then
      balance - tx.amount
    else if tx.toAccountId = some account.id then
      if account.type = AccountType.CREDIT_CARD then
        min (balance + tx.amount) 0
      else
        balance + tx.amount
    else
      balance
  else
    balance

/-- The whole per-account body of `recalculateBalances`: the final `balance`
after folding the sorted relevant transactions from `openingBalance`. -/
def accountBalance (account : Account) (transactions : List Transaction) : Rat :=
  (sortedTxs account transactions).foldl (applyTx account) account.openingBalance

/-- The function `recalculateBalances` of src/utils/financeLogic.ts. -/
def recalculateBalances (accounts : List Account) (transactions : List Transaction) :
    List Account :=
  accounts.map fun account => { account with currentBalance := accountBalance account transactions }

/-! ## Delta calculator (src/utils/financeLogic.ts, `calculateDelta`) -/

/-- The record returned by `calculateDelta`. -/
structure Delta where
  diff : Rat
  percent : Rat
  isPositive : Bool
deriving DecidableEq

/-- The function `calculateDelta` of src/utils/financeLogic.ts. -/
def calculateDelta (current previous : Rat) : Delta :=
  let diff := current - previous
  let percent : Rat := if previous = 0 then 0 else diff / |previous| * 100
  { diff := diff, percent := percent, isPositive := diff ≥ 0 }

/-! ## Category rollup (src/utils/financeLogic.ts, `calculateSpentForCategory`) -/

/-- The `targetIds = [categoryId, ...childIds]` computed by
`calculateSpentForCategory`, where `childIds` are the ids of the categories
whose `parentId` equals the target id. -/
def rollupTargets (categoryId : String) (categories : List Category) : List String :=
  categoryId :: (categories.filter fun c => c.parentId == some categoryId).map fun c => c.id

/-- The filter predicate of `calculateSpentForCategory`: EXPENSE type,
coalesced `categoryId` among the targets, and matching month / year. -/
def rollupMatches (categoryId : String) (categories : List Category) (month : Nat) (year : Int)
    (tx : Transaction) : Bool :=
  tx.type == TransactionType.EXPENSE
    && (rollupTargets categoryId categories).contains (tx.categoryId.getD "")
    && tx.date.month == month
    && tx.date.year == year

/-- The function `calculateSpentForCategory` of src/utils/financeLogic.ts. -/
def calculateSpentForCategory (transactions : List Transaction) (categoryId : String)
    (categories : List Category) (month : Nat) (year : Int) : Rat :=
  ((transactions.filter (rollupMatches categoryId categories month year)).map
    fun tx => tx.amount).sum

/-! ## Budget aggregator (src/components/BudgetManager.tsx) -/

/-- The `{ ...budget, spent }` record produced by `budgetsWithSpending`. -/
structure BudgetWithSpending where
  id : String
  categoryId : String
  amount : Rat
  period : BudgetPeriod
  spent : Rat
deriving DecidableEq

/-- The derived view `budgetsWithSpending` of src/components/BudgetManager.tsx. -/
def budgetsWithSpending (budgets : List Budget) (transactions : List Transaction)
    (categories : List Category) (month : Nat) (year : Int) : List BudgetWithSpending :=
  budgets.map fun budget =>
    { id := budget.id
      categoryId := budget.categoryId
      amount := budget.amount
      period := budget.period
      spent := calculateSpentForCategory transactions budget.categoryId categories month year }

/-- The `percent` derived in the budget list render:
`budget.amount > 0 ? Math.min((budget.spent / budget.amount) * 100, 100) : 0`. -/
def percentUsed (b : BudgetWithSpending) : Rat :=
  if b.amount > 0 then min (b.spent / b.amount * 100) 100 else 0

/-- The flag `isOver = budget.spent > budget.amount`. -/
def isOver (b : BudgetWithSpending) : Bool :=
  b.spent > b.amount

/-- The flag `isNear = percent >= 80 && !isOver`. -/
def isNear (b : BudgetWithSpending) : Bool :=
  percentUsed b ≥ 80 && !(isOver b)

/-- The three-way visual classification the component renders
(`isOver ? … : isNear ? … : …`). -/
inductive BudgetStatus
  | OVER
  | NEAR
  | NORMAL
deriving DecidableEq

/-- The classification actually applied by the render chain
`isOver ? OVER : isNear ? NEAR : NORMAL`. -/
def budgetStatus (b : BudgetWithSpending) : BudgetStatus :=
  if isOver b then BudgetStatus.OVER
  else if isNear b then BudgetStatus.NEAR
  else BudgetStatus.NORMAL

/-! ## Helper notions for the balance-formula claims -/

/-- The signed contribution of one transaction to an account's balance when
no credit-card clamping occurs: what `applyTx` adds for a non-credit-card
account. -/
def txDelta (account : Account) (tx : Transaction) : Rat :=
  if tx.type = TransactionType.INCOME then tx.amount
  else if tx.type = TransactionType.EXPENSE then -tx.amount
  else if tx.type = TransactionType.TRANSFER then
    if tx.fromAccountId = account.id then -tx.amount
    else if tx.toAccountId = some account.id then tx.amount
    else 0
  else 0

/-- Claim-side aggregate: total amount of INCOME transactions whose source
is the given account. -/
def incomeAsSource (A : Account) (txs : List Transaction) : Rat :=
  ((txs.filter fun tx =>
      tx.type == TransactionType.INCOME && tx.fromAccountId == A.id).map
    fun tx => tx.amount).sum

/-- Claim-side aggregate: total amount of EXPENSE transactions whose source
is the given account. -/
def expenseAsSource (A : Account) (txs : List Transaction) : Rat :=
  ((txs.filter fun tx =>
      tx.type == TransactionType.EXPENSE && tx.fromAccountId == A.id).map
    fun tx => tx.amount).sum

/-- Claim-side aggregate: total amount of TRANSFER transactions leaving the
given account (`fromAccountId = A.id`). -/
def transferOutSum (A : Account) (txs : List Transaction) : Rat :=
  ((txs.filter fun tx =>
      tx.type == TransactionType.TRANSFER && tx.fromAccountId == A.id).map
    fun tx => tx.amount).sum

/-- Claim-side aggregate: total amount of TRANSFER transactions arriving at
the given account (`toAccountId = A.id`). -/
def transferInSum (A : Account) (txs : List Transaction) : Rat :=
  ((txs.filter fun tx =>
      tx.type == TransactionType.TRANSFER && tx.toAccountId == some A.id).map
    fun tx => tx.amount).sum

lemma applyTx_of_not_creditCard (account : Account)
    (h : account.type ≠ AccountType.CREDIT_CARD) (b : Rat) (tx : Transaction) :
    applyTx account b tx = b + txDelta account tx := by
  unfold applyTx txDelta
  cases htype : tx.type
  · simp [sub_eq_add_neg]
  · simp [h]
  · by_cases hfrom : tx.fromAccountId = account.id
    · simp [hfrom, sub_eq_add_neg]
    · by_cases hto : tx.toAccountId = some account.id <;> simp [hfrom, hto, h]

lemma foldl_applyTx_of_not_creditCard (account : Account)
    (h : account.type ≠ AccountType.CREDIT_CARD) (l : List Transaction) :
    ∀ b : Rat, l.foldl (applyTx account) b = b + (l.map (txDelta account)).sum := by
  induction l with
  | nil => simp
  | cons t rest ih =>
      intro b
      rw [List.foldl_cons, ih, applyTx_of_not_creditCard account h, List.map_cons,
        List.sum_cons]
      ring

/-- For a non-credit-card account, the engine's fold is the opening balance
plus the multiset sum of the per-transaction deltas over the relevant
transactions (the internal sort is a permutation, and addition commutes). -/
lemma accountBalance_eq_delta_sum (account : Account)
    (h : account.type ≠ AccountType.CREDIT_CARD) (txs : List Transaction) :
    accountBalance account txs
      = account.openingBalance + ((relevantTxs account txs).map (txDelta account)).sum := by
  unfold accountBalance sortedTxs
  rw [foldl_applyTx_of_not_creditCard account h]
  congr 1
  exact List.Perm.sum_eq (List.Perm.map _ (List.mergeSort_perm _ _))

lemma sum_map_decompose {α : Type} (l : List α) (d i e o n : α → Rat)
    (h : ∀ a ∈ l, d a = i a - e a - o a + n a) :
    (l.map d).sum = (l.map i).sum - (l.map e).sum - (l.map o).sum + (l.map n).sum := by
  induction l with
  | nil => simp
  | cons a t ih =>
      simp only [List.map_cons, List.sum_cons]
      rw [h a (List.mem_cons_self a t), ih fun b hb => h b (List.mem_cons_of_mem a hb)]
      ring

lemma sum_filter_eq_sum_ite {α : Type} (p : α → Bool) (f : α → Rat) (l : List α) :
    ((l.filter p).map f).sum = (l.map fun a => if p a then f a else 0).sum := by
  induction l with
  | nil => rfl
  | cons a t ih => by_cases h : p a <;> simp [List.filter_cons, h, ih]

/-- Pointwise form of the balance formula: under the data-model invariants
(non-TRANSFER transactions carry no `toAccountId`, and a TRANSFER links two
distinct accounts), the relevant-filtered delta of a transaction is its
income-as-source contribution minus expense-as-source minus transfer-out plus
transfer-in contribution. -/
lemma delta_pointwise (A : Account) (tx : Transaction)
    (h1 : tx.type ≠ TransactionType.TRANSFER → tx.toAccountId = none)
    (h2 : tx.type = TransactionType.TRANSFER → tx.toAccountId ≠ some tx.fromAccountId) :
    (if isRelevant A tx then txDelta A tx else 0)
      = (if tx.type == TransactionType.INCOME && tx.fromAccountId == A.id
            then tx.amount else 0)
        - (if tx.type == TransactionType.EXPENSE && tx.fromAccountId == A.id
            then tx.amount else 0)
        - (if tx.type == TransactionType.TRANSFER && tx.fromAccountId == A.id
            then tx.amount else 0)
        + (if tx.type == TransactionType.TRANSFER && tx.toAccountId == some A.id
            then tx.amount else 0) := by
  cases htype : tx.type <;> by_cases hfrom : tx.fromAccountId = A.id
  · have hto : tx.toAccountId = none := h1 (by simp [htype])
    simp [isRelevant, txDelta, htype, hfrom, hto]
  · have hto : tx.toAccountId = none := h1 (by simp [htype])
    simp [isRelevant, txDelta, htype, hfrom, hto]
  · have hto : tx.toAccountId = none := h1 (by simp [htype])
    simp [isRelevant, txDelta, htype, hfrom, hto]
  · have hto : tx.toAccountId = none := h1 (by simp [htype])
    simp [isRelevant, txDelta, htype, hfrom, hto]
  · have hto : tx.toAccountId ≠ some A.id := by
      rw [← hfrom]
      exact h2 htype
    simp [isRelevant, txDelta, htype, hfrom, hto]
  · by_cases hto : tx.toAccountId = some A.id <;>
      simp [isRelevant, txDelta, htype, hfrom, hto]

/-- Summed form of the balance formula over the relevance filter. -/
lemma relevant_delta_sum (A : Account) (txs : List Transaction)
    (h1 : ∀ tx ∈ txs, tx.type ≠ TransactionType.TRANSFER → tx.toAccountId = none)
    (h2 : ∀ tx ∈ txs, tx.type = TransactionType.TRANSFER →
        tx.toAccountId ≠ some tx.fromAccountId) :
    ((relevantTxs A txs).map (txDelta A)).sum
      = incomeAsSource A txs - expenseAsSource A txs - transferOutSum A txs
          + transferInSum A txs := by
  unfold relevantTxs incomeAsSource expenseAsSource transferOutSum transferInSum
  rw [sum_filter_eq_sum_ite, sum_filter_eq_sum_ite, sum_filter_eq_sum_ite,
    sum_filter_eq_sum_ite, sum_filter_eq_sum_ite]
  exact sum_map_decompose txs _ _ _ _ _ fun tx htx =>
    delta_pointwise A tx (h1 tx htx) (h2 tx htx)

/-! ## Theorems -/

/-- C1: for every non-credit-card account `A` in the input list, under the
data-model invariants (non-TRANSFER transactions carry no destination and a
TRANSFER links two distinct accounts), `recalculateBalances` returns `A` with
`currentBalance = openingBalance + Σ INCOME as source − Σ EXPENSE as source
− Σ TRANSFER out + Σ TRANSFER in`; the balance is unchanged under any
permutation of the input transactions; and an account of any type with no
transaction referencing it keeps its opening balance. -/
theorem C1_balance_formula (accounts : List Account) (txs txsPerm : List Transaction)
    (A : Account) (hmem : A ∈ accounts) (hcc : A.type ≠ AccountType.CREDIT_CARD)
    (hwf1 : ∀ tx ∈ txs, tx.type ≠ TransactionType.TRANSFER → tx.toAccountId = none)
    (hwf2 : ∀ tx ∈ txs, tx.type = TransactionType.TRANSFER →
        tx.toAccountId ≠ some tx.fromAccountId)
    (hperm : txsPerm.Perm txs) :
    { A with currentBalance := accountBalance A txs } ∈ recalculateBalances accounts txs
    ∧ accountBalance A txs
        = A.openingBalance + incomeAsSource A txs - expenseAsSource A txs
            - transferOutSum A txs + transferInSum A txs
    ∧ accountBalance A txsPerm = accountBalance A txs
    ∧ ∀ B : Account,
        (∀ tx ∈ txs, tx.fromAccountId ≠ B.id ∧ tx.toAccountId ≠ some B.id) →
        accountBalance B txs = B.openingBalance := by
  refine ⟨?_, ?_, ?_, ?_⟩
  · simp only [recalculateBalances, List.mem_map]
    exact ⟨A, hmem, rfl⟩
  · rw [accountBalance_eq_delta_sum A hcc, relevant_delta_sum A txs hwf1 hwf2]
    ring
  · rw [accountBalance_eq_delta_sum A hcc, accountBalance_eq_delta_sum A hcc]
    congr 1
    exact List.Perm.sum_eq (List.Perm.map _ (List.Perm.filter _ hperm))
  · intro B hB
    have hnil : relevantTxs B txs = [] := by
      refine List.filter_eq_nil_iff.mpr fun tx htx => ?_
      simp [isRelevant, (hB tx htx).1, (hB tx htx).2]
    unfold accountBalance sortedTxs
    rw [hnil]
    simp

/-- Sample account for the C1 witness: the spec's scenario account
`{id: a1, type: SAVINGS, opening: 1000}`. -/
def savA1 : Account :=
  { id := "a1", name := "Main", type := AccountType.SAVINGS,
    openingBalance := 1000, currentBalance := 1000, status := AccountStatus.ACTIVE,
    dueDate := none }

/-- Sample transaction for the C1 witness: EXPENSE of 200 from `a1` dated
2024-05-01. -/
def expenseMay1 : Transaction :=
  { id := "t1", date := { time := 1714521600, month := 4, year := 2024 }, amount := 200,
    type := TransactionType.EXPENSE, fromAccountId := "a1", toAccountId := none,
    categoryId := none, subCategoryId := none, notes := "" }

/-- Sample transaction for the C1 witness: INCOME of 50 into `a1` dated
2024-05-02. -/
def incomeMay2 : Transaction :=
  { id := "t2", date := { time := 1714608000, month := 4, year := 2024 }, amount := 50,
    type := TransactionType.INCOME, fromAccountId := "a1", toAccountId := none,
    categoryId := none, subCategoryId := none, notes := "" }

/-- C1 witness: the spec's scenario — opening 1000, EXPENSE 200 then INCOME
50 gives 850, the updated account is in the engine's output, and swapping the
two transactions leaves the balance unchanged. -/
theorem C1_balance_formula_witness :
    { savA1 with currentBalance := accountBalance savA1 [expenseMay1, incomeMay2] }
        ∈ recalculateBalances [savA1] [expenseMay1, incomeMay2]
    ∧ accountBalance savA1 [expenseMay1, incomeMay2] = 850
    ∧ accountBalance savA1 [incomeMay2, expenseMay1]
        = accountBalance savA1 [expenseMay1, incomeMay2] := by
  have h := C1_balance_formula [savA1] [expenseMay1, incomeMay2]
    [incomeMay2, expenseMay1] savA1 (by simp) (by decide) (by decide) (by decide)
    (List.Perm.swap expenseMay1 incomeMay2 [])
  refine ⟨h.1, ?_, h.2.2.1⟩
  rw [h.2.1]
  simp +decide [savA1, incomeAsSource, expenseAsSource, transferOutSum, transferInSum,
    expenseMay1, incomeMay2, List.filter_cons]
  norm_num

/-- C7: `calculateDelta(current, previous)` returns exactly
`{ diff := current - previous, percent := previous = 0 ? 0 : diff / |previous| * 100,
isPositive := diff ≥ 0 }`; in particular `calculateDelta x 0` has percent `0`
(the divide-by-zero case yields `0`) and `calculateDelta x x` has diff `0`. -/
theorem C7_calculateDelta_contract (current previous x : Rat) :
    (calculateDelta current previous).diff = current - previous
    ∧ (calculateDelta current previous).percent
        = (if previous = 0 then 0 else (current - previous) / |previous| * 100)
    ∧ ((calculateDelta current previous).isPositive = true ↔ 0 ≤ current - previous)
    ∧ (calculateDelta x 0).percent = 0
    ∧ (calculateDelta x x).diff = 0 := by
  refine ⟨rfl, rfl, ?_, ?_, ?_⟩
  · simp [calculateDelta, ge_iff_le]
  · simp [calculateDelta]
  · simp [calculateDelta]

/-- C6 (amended): OVER exactly when `spent > amount`; NEAR exactly when
`percent ≥ 80` and not OVER — the code places no upper bound `percent < 100`
on NEAR, so `percent = 100` (in particular `spent = amount > 0`) with no
overrun is NEAR; NORMAL exactly when `percent < 80` and not OVER. -/
theorem C6_status_classification (b : BudgetWithSpending) :
    (budgetStatus b = BudgetStatus.OVER ↔ b.amount < b.spent)
    ∧ (budgetStatus b = BudgetStatus.NEAR ↔ (80 ≤ percentUsed b ∧ ¬ b.amount < b.spent))
    ∧ (budgetStatus b = BudgetStatus.NORMAL ↔ (percentUsed b < 80 ∧ ¬ b.amount < b.spent)) := by
  unfold budgetStatus isNear isOver
  by_cases hov : b.amount < b.spent
  · simp [hov]
  · by_cases hn : (80 : Rat) ≤ percentUsed b
    · simp [hov, hn]
    · simp [hov, hn, not_le.mp hn]

/-- C6 counterexample: a budget with `amount = 100` and `spent = 100`
(spent exactly equal to amount, percent exactly 100, not over) is classified
NEAR by the code, not NORMAL as the claim states. -/
theorem C6_spent_eq_amount_is_NEAR :
    budgetStatus
        { id := "b1", categoryId := "food", amount := 100,
          period := BudgetPeriod.MONTHLY, spent := 100 }
      = BudgetStatus.NEAR
    ∧ percentUsed
        { id := "b1", categoryId := "food", amount := 100,
          period := BudgetPeriod.MONTHLY, spent := 100 }
      = 100 := by
  constructor
  · norm_num [budgetStatus, isNear, isOver, percentUsed]
  · norm_num [percentUsed]

/-- C8: `recalculateBalances` is pure on its inputs and, position by position,
every returned account agrees with the corresponding input account on `id`,
`name`, `type`, `openingBalance`, `status` and `dueDate` (everything except
`currentBalance`); the output list has the same length and order. -/
theorem C8_frame_preservation (accounts : List Account) (txs : List Transaction) :
    (recalculateBalances accounts txs).length = accounts.length
    ∧ List.Forall₂
        (fun out inp =>
          out.id = inp.id ∧ out.name = inp.name ∧ out.type = inp.type
            ∧ out.openingBalance = inp.openingBalance ∧ out.status = inp.status
            ∧ out.dueDate = inp.dueDate)
        (recalculateBalances accounts txs) accounts := by
  constructor
  · simp [recalculateBalances]
  · induction accounts with
    | nil => exact List.Forall₂.nil
    | cons a rest ih =>
        exact List.Forall₂.cons ⟨rfl, rfl, rfl, rfl, rfl, rfl⟩ ih

/-- C9: the engine checks source-versus-destination role only for TRANSFER
transactions: an EXPENSE with `toAccountId = A.id` (and a different source)
passes the relevance filter for `A` and is subtracted from `A`'s balance, and
an INCOME with `toAccountId = A.id` is added (with the credit-card clamp) —
exactly as if `A` were the source account. -/
theorem C9_role_ignored_for_non_transfers (A : Account) (b : Rat) (t : Transaction)
    (txs : List Transaction) (hto : t.toAccountId = some A.id)
    (hfrom : t.fromAccountId ≠ A.id) (hmem : t ∈ txs) :
    t ∈ relevantTxs A txs
    ∧ (t.type = TransactionType.EXPENSE → applyTx A b t = b - t.amount)
    ∧ (t.type = TransactionType.INCOME →
        applyTx A b t
          = (if A.type = AccountType.CREDIT_CARD then min (b + t.amount) 0 else b + t.amount))
    ∧ (t.type ≠ TransactionType.TRANSFER →
        applyTx A b t = applyTx A b { t with fromAccountId := A.id, toAccountId := none }) := by
  refine ⟨?_, ?_, ?_, ?_⟩
  · simp [relevantTxs, List.mem_filter, hmem, isRelevant, hto]
  · intro h
    simp [applyTx, h]
  · intro h
    simp [applyTx, h]
  · intro h
    cases htype : t.type with
    | EXPENSE => simp [applyTx, htype]
    | INCOME => simp [applyTx, htype]
    | TRANSFER => exact absurd htype h

/-- C2: for a CREDIT_CARD account, applying an INCOME event, or a TRANSFER
arriving at the account (destination role, source elsewhere — a TRANSFER from
the account itself takes the subtracting branch instead), clamps the running
balance to `min (balance + amount) 0 ≤ 0`; hence whenever the last event of
the chronological fold is such an event, the resulting balance is `≤ 0`. -/
theorem C2_credit_card_clamp (A : Account) (hA : A.type = AccountType.CREDIT_CARD) :
    (∀ (b : Rat) (tx : Transaction),
        (tx.type = TransactionType.INCOME
          ∨ (tx.type = TransactionType.TRANSFER ∧ tx.toAccountId = some A.id
              ∧ tx.fromAccountId ≠ A.id)) →
        applyTx A b tx ≤ 0)
    ∧ (∀ (txs l : List Transaction) (tx : Transaction),
        sortedTxs A txs = l ++ [tx] →
        (tx.type = TransactionType.INCOME
          ∨ (tx.type = TransactionType.TRANSFER ∧ tx.toAccountId = some A.id
              ∧ tx.fromAccountId ≠ A.id)) →
        accountBalance A txs ≤ 0) := by
  have step : ∀ (b : Rat) (tx : Transaction),
      (tx.type = TransactionType.INCOME
        ∨ (tx.type = TransactionType.TRANSFER ∧ tx.toAccountId = some A.id
            ∧ tx.fromAccountId ≠ A.id)) →
      applyTx A b tx ≤ 0 := by
    intro b tx hcond
    rcases hcond with h | ⟨h1, h2, h3⟩
    · simp [applyTx, h, hA]
    · simp [applyTx, h1, h2, h3, hA]
  refine ⟨step, ?_⟩
  intro txs l tx hsort hcond
  unfold accountBalance
  rw [hsort, List.foldl_append]
  exact step _ tx hcond

/-- C3: with a non-empty target id whose direct children also have non-empty
ids, the rollup equals the sum of amounts of exactly the EXPENSE transactions
of the target month/year whose `categoryId` is the target or one of its
direct children — so INCOME/TRANSFER and out-of-window transactions
contribute nothing — and rewriting every transaction's `subCategoryId` never
changes the result. -/
theorem C3_rollup_characterization (txs : List Transaction) (categoryId : String)
    (categories : List Category) (month : Nat) (year : Int)
    (hcid : categoryId ≠ "")
    (hchild : ∀ c ∈ categories, c.parentId = some categoryId → c.id ≠ "") :
    calculateSpentForCategory txs categoryId categories month year
      = ((txs.filter fun tx =>
            decide (tx.type = TransactionType.EXPENSE
              ∧ (tx.categoryId = some categoryId
                  ∨ ∃ c ∈ categories, c.parentId = some categoryId
                      ∧ tx.categoryId = some c.id)
              ∧ tx.date.month = month ∧ tx.date.year = year)).map
          fun tx => tx.amount).sum
    ∧ ∀ f : Transaction → Option String,
        calculateSpentForCategory (txs.map fun tx => { tx with subCategoryId := f tx })
            categoryId categories month year
          = calculateSpentForCategory txs categoryId categories month year := by
  constructor
  · unfold calculateSpentForCategory
    congr 1
    refine congrArg _ (List.filter_congr fun tx _ => ?_)
    rw [Bool.eq_iff_iff]
    have hcid' : ("" : String) ≠ categoryId := Ne.symm hcid
    cases hcat : tx.categoryId with
    | none =>
        simp only [rollupMatches, rollupTargets, hcat, Option.getD_none,
          Bool.and_eq_true, beq_iff_eq, decide_eq_true_eq, List.contains,
          List.elem_eq_mem, List.mem_cons, List.mem_map, List.mem_filter]
        constructor
        · rintro ⟨⟨⟨htype, hmm⟩, hm⟩, hy⟩
          rcases hmm with h | ⟨c, ⟨hc1, hc2⟩, hc3⟩
          · exact absurd h hcid'
          · exact absurd hc3 (hchild c hc1 hc2)
        · rintro ⟨htype, hmm, hm, hy⟩
          rcases hmm with h | ⟨c, hc1, hc2, h⟩ <;> simp at h
    | some s =>
        simp only [rollupMatches, rollupTargets, hcat, Option.getD_some,
          Option.some.injEq, Bool.and_eq_true, beq_iff_eq, decide_eq_true_eq,
          List.contains, List.elem_eq_mem, List.mem_cons, List.mem_map,
          List.mem_filter]
        constructor
        · rintro ⟨⟨⟨h1, hmm⟩, h3⟩, h4⟩
          refine ⟨h1, ?_, h3, h4⟩
          rcases hmm with h | ⟨c, ⟨hc1, hc2⟩, hc3⟩
          · exact Or.inl h
          · exact Or.inr ⟨c, hc1, hc2, hc3.symm⟩
        · rintro ⟨h1, hmm, h3, h4⟩
          refine ⟨⟨⟨h1, ?_⟩, h3⟩, h4⟩
          rcases hmm with h | ⟨c, hc1, hc2, hc3⟩
          · exact Or.inl h
          · exact Or.inr ⟨c, ⟨hc1, hc2⟩, hc3.symm⟩
  · intro f
    unfold calculateSpentForCategory
    induction txs with
    | nil => rfl
    | cons t rest ih =>
        have hsame : rollupMatches categoryId categories month year
            { t with subCategoryId := f t }
          = rollupMatches categoryId categories month year t := rfl
        simp only [List.map_cons, List.filter_cons, hsame]
        by_cases h : rollupMatches categoryId categories month year t <;>
          simp [h, ih]

/-- Sample category for the rollup witnesses: the parent expense
category "food". -/
def catFood : Category :=
  { id := "food", name := "Food", parentId := none, type := TransactionType.EXPENSE }

/-- Sample category for the rollup witnesses: "groc", a direct child
of "food". -/
def catGroceries : Category :=
  { id := "groc", name := "Groceries", parentId := some "food",
    type := TransactionType.EXPENSE }

/-- Sample transaction for the rollup witnesses: EXPENSE of 100 tagged with
the parent category in May 2024. -/
def foodTx : Transaction :=
  { id := "x1", date := { time := 10, month := 4, year := 2024 }, amount := 100,
    type := TransactionType.EXPENSE, fromAccountId := "a1", toAccountId := none,
    categoryId := some "food", subCategoryId := none, notes := "" }

/-- Sample transaction for the rollup witnesses: EXPENSE of 50 tagged with
the child category in May 2024. -/
def grocTx : Transaction :=
  { id := "x2", date := { time := 20, month := 4, year := 2024 }, amount := 50,
    type := TransactionType.EXPENSE, fromAccountId := "a1", toAccountId := none,
    categoryId := some "groc", subCategoryId := some "veg", notes := "" }

/-- Sample transaction for the rollup witnesses: an INCOME miscategorized
under "food" in the same month, which must contribute nothing. -/
def strayIncomeTx : Transaction :=
  { id := "x3", date := { time := 30, month := 4, year := 2024 }, amount := 999,
    type := TransactionType.INCOME, fromAccountId := "a1", toAccountId := none,
    categoryId := some "food", subCategoryId := none, notes := "" }

/-- C3 witness: the spec scenario — parent-tagged 100 plus child-tagged 50 in
the month give 150; the miscategorized INCOME contributes nothing; the
characterization theorem applies at this input. -/
theorem C3_rollup_characterization_witness :
    calculateSpentForCategory [foodTx, grocTx, strayIncomeTx] "food"
        [catFood, catGroceries] 4 2024
      = (([foodTx, grocTx, strayIncomeTx].filter fun tx =>
            decide (tx.type = TransactionType.EXPENSE
              ∧ (tx.categoryId = some "food"
                  ∨ ∃ c ∈ [catFood, catGroceries], c.parentId = some "food"
                      ∧ tx.categoryId = some c.id)
              ∧ tx.date.month = 4 ∧ tx.date.year = 2024)).map
          fun tx => tx.amount).sum
    ∧ calculateSpentForCategory [foodTx, grocTx, strayIncomeTx] "food"
        [catFood, catGroceries] 4 2024 = 150 := by
  constructor
  · exact (C3_rollup_characterization [foodTx, grocTx, strayIncomeTx] "food"
      [catFood, catGroceries] 4 2024 (by decide) (by decide)).1
  · simp +decide [calculateSpentForCategory, rollupMatches, rollupTargets,
      foodTx, grocTx, strayIncomeTx, catFood, catGroceries, List.filter_cons]
    norm_num

lemma sum_filter_or {α : Type} (p q : α → Bool) (f : α → Rat)
    (hdisj : ∀ a, p a = true → q a = false) (l : List α) :
    ((l.filter fun a => p a || q a).map f).sum
      = ((l.filter p).map f).sum + ((l.filter q).map f).sum := by
  induction l with
  | nil => simp
  | cons a t ih =>
      by_cases hp : p a
      · have hq := hdisj a hp
        simp only [List.filter_cons, hp, hq]
        simp [ih]
        ring
      · by_cases hq : q a <;>
          · simp only [List.filter_cons, hp, hq]
            simp [ih]
            try ring

/-- Partitioning a filtered sum over a duplicate-free list of keys into
per-key buckets. -/
lemma sum_filter_contains {α : Type} (p : α → Bool) (key : α → String) (f : α → Rat) :
    ∀ ids : List String, ids.Nodup → ∀ l : List α,
      ((l.filter fun a => p a && ids.contains (key a)).map f).sum
        = (ids.map fun i => ((l.filter fun a => p a && (key a == i)).map f).sum).sum := by
  intro ids
  induction ids with
  | nil =>
      intro _ l
      simp [List.contains, List.elem_eq_mem]
  | cons i rest ih =>
      intro hnodup l
      have hnot : i ∉ rest := (List.nodup_cons.mp hnodup).1
      have hsplit : ∀ a : α,
          (p a && (i :: rest).contains (key a))
            = ((p a && (key a == i)) || (p a && rest.contains (key a))) := by
        intro a
        rw [List.contains_cons, Bool.and_or_distrib_left]
      rw [List.filter_congr fun a _ => hsplit a,
        sum_filter_or _ _ f ?_ l, List.map_cons, List.sum_cons,
        ih (List.nodup_cons.mp hnodup).2 l]
      intro a ha
      have ha' : p a = true ∧ (key a == i) = true := by simpa using ha
      have hkeyi : key a = i := by simpa using ha'.2
      rw [hkeyi]
      simp [List.contains, List.elem_eq_mem, hnot]

/-- The direct spend of a single category id (from the claim): the sum of
EXPENSE amounts of the month whose (coalesced) `categoryId` equals exactly
that id. -/
def directSpend (cid : String) (txs : List Transaction) (month : Nat) (year : Int) : Rat :=
  ((txs.filter fun tx =>
      tx.type == TransactionType.EXPENSE && (tx.categoryId.getD "" == cid)
        && tx.date.month == month && tx.date.year == year).map
    fun tx => tx.amount).sum

/-- The month/type part of the rollup filter, with the category test
factored out. -/
def rollupBase (month : Nat) (year : Int) (tx : Transaction) : Bool :=
  tx.type == TransactionType.EXPENSE && tx.date.month == month && tx.date.year == year

lemma rollupMatches_eq_base_and_contains (cid : String) (cats : List Category)
    (m : Nat) (y : Int) (tx : Transaction) :
    rollupMatches cid cats m y tx
      = (rollupBase m y tx && (rollupTargets cid cats).contains (tx.categoryId.getD "")) := by
  unfold rollupMatches rollupBase
  cases tx.type == TransactionType.EXPENSE <;>
    cases (rollupTargets cid cats).contains (tx.categoryId.getD "") <;>
      cases tx.date.month == m <;> cases tx.date.year == y <;> rfl

/-- C4: with pairwise-distinct category ids and no grandparent chains, the
rollup of a parent category is the sum, over the parent id and each direct
child id, of the direct spend of that id alone — no transaction is counted
twice and none is omitted. -/
theorem C4_rollup_decomposition (txs : List Transaction) (categories : List Category)
    (month : Nat) (year : Int) (P : Category)
    (hnodup : (categories.map fun c => c.id).Nodup)
    (hgrand : ∀ c ∈ categories, ∀ p ∈ categories,
        c.parentId = some p.id → p.parentId = none)
    (hP : P ∈ categories) (hPtop : P.parentId = none) :
    calculateSpentForCategory txs P.id categories month year
      = ((rollupTargets P.id categories).map
          fun cid => directSpend cid txs month year).sum := by
  have hchildnodup :
      ((categories.filter fun c => c.parentId == some P.id).map fun c => c.id).Nodup := by
    refine List.Nodup.sublist ?_ hnodup
    exact List.Sublist.map _ (List.filter_sublist categories)
  have hPnot : P.id ∉ (categories.filter fun c => c.parentId == some P.id).map
      fun c => c.id := by
    intro hmm
    rcases List.mem_map.mp hmm with ⟨c, hcmem, hcid⟩
    rcases List.mem_filter.mp hcmem with ⟨hc1, hc2⟩
    have hc2' : c.parentId = some P.id := by simpa using hc2
    by_cases hce : c = P
    · rw [hce] at hc2'
      rw [hPtop] at hc2'
      exact Option.noConfusion hc2'
    · exact hce (List.inj_on_of_nodup_map hnodup hc1 hP hcid)
  have htargetsnodup : (rollupTargets P.id categories).Nodup :=
    List.nodup_cons.mpr ⟨hPnot, hchildnodup⟩
  unfold calculateSpentForCategory
  rw [List.filter_congr fun tx _ => rollupMatches_eq_base_and_contains P.id categories
    month year tx]
  rw [sum_filter_contains (rollupBase month year) (fun tx => tx.categoryId.getD "")
    (fun tx => tx.amount) (rollupTargets P.id categories) htargetsnodup txs]
  refine congrArg _ (List.map_congr_left fun cid _ => ?_)
  unfold directSpend
  refine congrArg _ (congrArg _ (List.filter_congr fun tx _ => ?_))
  unfold rollupBase
  cases tx.type == TransactionType.EXPENSE <;>
    cases tx.categoryId.getD "" == cid <;>
      cases tx.date.month == month <;> cases tx.date.year == year <;> rfl

/-- C4 witness: for the parent "food" with child "groc", parent-tagged 100
plus child-tagged 50 decompose as `directSpend food = 100` plus
`directSpend groc = 50`, totalling the rollup's 150. -/
theorem C4_rollup_decomposition_witness :
    calculateSpentForCategory [foodTx, grocTx, strayIncomeTx] "food"
        [catFood, catGroceries] 4 2024
      = ((rollupTargets "food" [catFood, catGroceries]).map
          fun cid => directSpend cid [foodTx, grocTx, strayIncomeTx] 4 2024).sum
    ∧ directSpend "food" [foodTx, grocTx, strayIncomeTx] 4 2024 = 100
    ∧ directSpend "groc" [foodTx, grocTx, strayIncomeTx] 4 2024 = 50 := by
  refine ⟨?_, ?_, ?_⟩
  · have h := C4_rollup_decomposition [foodTx, grocTx, strayIncomeTx]
      [catFood, catGroceries] 4 2024 catFood (by decide) (by decide) (by simp) rfl
    exact h
  · simp +decide [directSpend, foodTx, grocTx, strayIncomeTx, List.filter_cons]
  · simp +decide [directSpend, foodTx, grocTx, strayIncomeTx, List.filter_cons]

/-- C10: the rollup coalesces an absent `categoryId` to the empty string: an
uncategorized transaction is counted exactly when `""` is among the target
ids; calling the rollup with target id `""` (when no category is a child of
`""` and no transaction carries a literal `""` category) sums exactly the
uncategorized EXPENSE transactions of the month; and whenever `""` is not a
target, uncategorized transactions are excluded. -/
theorem C10_uncategorized_coalescing (cid : String) (cats : List Category) (m : Nat)
    (y : Int) (tx : Transaction) (txs : List Transaction)
    (htx : tx.categoryId = none)
    (hnochild : ∀ c ∈ cats, c.parentId ≠ some "")
    (hnoempty : ∀ t ∈ txs, t.categoryId ≠ some "") :
    (rollupMatches cid cats m y tx = true
        ↔ (tx.type = TransactionType.EXPENSE ∧ "" ∈ rollupTargets cid cats
            ∧ tx.date.month = m ∧ tx.date.year = y))
    ∧ calculateSpentForCategory txs "" cats m y
        = ((txs.filter fun t =>
              t.type == TransactionType.EXPENSE && t.categoryId == (none : Option String)
                && t.date.month == m && t.date.year == y).map
            fun t => t.amount).sum
    ∧ ("" ∉ rollupTargets cid cats → rollupMatches cid cats m y tx = false) := by
  have hkey : ∀ (c : String) (u : Transaction), rollupMatches c cats m y u = true
      ↔ (u.type = TransactionType.EXPENSE
          ∧ (u.categoryId.getD "") ∈ rollupTargets c cats
          ∧ u.date.month = m ∧ u.date.year = y) := by
    intro c u
    simp only [rollupMatches, Bool.and_eq_true, beq_iff_eq, List.contains,
      List.elem_eq_mem, decide_eq_true_eq]
    tauto
  refine ⟨?_, ?_, ?_⟩
  · rw [hkey cid tx, htx]
    rfl
  · unfold calculateSpentForCategory
    have htargets : rollupTargets "" cats = [""] := by
      unfold rollupTargets
      rw [List.filter_eq_nil_iff.mpr fun c hc => ?_]
      · rfl
      · simp [hnochild c hc]
    refine congrArg _ (congrArg _ (List.filter_congr fun t ht => ?_))
    rw [Bool.eq_iff_iff, hkey "" t, htargets]
    cases hcat : t.categoryId with
    | none => simp [hcat, and_assoc]
    | some s =>
        have hs : s ≠ "" := by
          intro hcontra
          exact hnoempty t ht (by rw [hcat, hcontra])
        simp [hs]
  · intro hnot
    rw [← Bool.not_eq_true, hkey cid tx, htx]
    simp only [Option.getD_none]
    tauto

/-- Sample transaction for the C10 witness: an uncategorized EXPENSE of 70 in
May 2024. -/
def uncategorizedTx : Transaction :=
  { id := "u1", date := { time := 40, month := 4, year := 2024 }, amount := 70,
    type := TransactionType.EXPENSE, fromAccountId := "a1", toAccountId := none,
    categoryId := none, subCategoryId := none, notes := "" }

/-- C10 witness: with targets rooted at "food" the uncategorized expense is
not matched, and rolling up the empty-string target sums exactly the
uncategorized expenses (70 here). -/
theorem C10_uncategorized_coalescing_witness :
    rollupMatches "food" [catFood, catGroceries] 4 2024 uncategorizedTx = false
    ∧ calculateSpentForCategory [foodTx, uncategorizedTx] "" [catFood, catGroceries] 4 2024
        = (([foodTx, uncategorizedTx].filter fun t =>
              t.type == TransactionType.EXPENSE && t.categoryId == (none : Option String)
                && t.date.month == 4 && t.date.year == 2024).map
            fun t => t.amount).sum := by
  constructor
  · exact (C10_uncategorized_coalescing "food" [catFood, catGroceries] 4 2024
      uncategorizedTx [foodTx, uncategorizedTx] rfl (by decide) (by decide)).2.2
      (by decide)
  · exact (C10_uncategorized_coalescing "food" [catFood, catGroceries] 4 2024
      uncategorizedTx [foodTx, uncategorizedTx] rfl (by decide) (by decide)).2.1

/-- C5: every budget in the aggregated view carries
`spent = calculateSpentForCategory` for its category and the viewed period;
with non-negative transaction amounts the displayed percent equals
`clamp (spent / amount * 100) 0 100` when `amount > 0` and `0` otherwise, so
it always lies in `[0, 100]`; and a budget with no matching transaction has
`spent = 0` and `percent = 0`. -/
theorem C5_budget_aggregation (budgets : List Budget) (txs : List Transaction)
    (categories : List Category) (month : Nat) (year : Int) (b : BudgetWithSpending)
    (hb : b ∈ budgetsWithSpending budgets txs categories month year)
    (hamt : ∀ tx ∈ txs, 0 ≤ tx.amount) :
    b.spent = calculateSpentForCategory txs b.categoryId categories month year
    ∧ percentUsed b
        = (if b.amount > 0 then max 0 (min (b.spent / b.amount * 100) 100) else 0)
    ∧ 0 ≤ percentUsed b ∧ percentUsed b ≤ 100
    ∧ ((∀ tx ∈ txs, rollupMatches b.categoryId categories month year tx = false) →
        b.spent = 0 ∧ percentUsed b = 0) := by
  obtain ⟨budget, hmemb, rfl⟩ := List.mem_map.mp hb
  have hspent0 : 0 ≤ calculateSpentForCategory txs budget.categoryId categories month year := by
    unfold calculateSpentForCategory
    refine List.sum_nonneg fun x hx => ?_
    rcases List.mem_map.mp hx with ⟨tx, htx, rfl⟩
    exact hamt tx (List.mem_filter.mp htx).1
  refine ⟨rfl, ?_, ?_, ?_, ?_⟩
  · by_cases hpos : (budget.amount : Rat) > 0
    · simp only [percentUsed, hpos, if_true, if_pos]
      rw [max_eq_right]
      exact le_min (by positivity) (by norm_num)
    · simp [percentUsed, hpos]
  · by_cases hpos : (budget.amount : Rat) > 0
    · simp only [percentUsed, hpos, if_true, if_pos]
      exact le_min (by positivity) (by norm_num)
    · simp [percentUsed, hpos]
  · by_cases hpos : (budget.amount : Rat) > 0
    · simp only [percentUsed, hpos, if_true, if_pos]
      exact min_le_right _ _
    · simp [percentUsed, hpos]
  · intro hnone
    have hzero : calculateSpentForCategory txs budget.categoryId categories month year = 0 := by
      unfold calculateSpentForCategory
      rw [List.filter_eq_nil_iff.mpr fun tx htx => by simp [hnone tx htx]]
      rfl
    refine ⟨hzero, ?_⟩
    by_cases hpos : (budget.amount : Rat) > 0 <;>
      simp [percentUsed, hpos, hzero]

/-- Sample budget for the C5 witness: a monthly allowance of 500 for the
"food" category. -/
def budFood : Budget :=
  { id := "b1", categoryId := "food", amount := 500, period := BudgetPeriod.MONTHLY }

/-- The aggregated-view record the C5 witness applies the theorem to. -/
def budFoodView : BudgetWithSpending :=
  { id := "b1", categoryId := "food", amount := 500, period := BudgetPeriod.MONTHLY,
    spent := calculateSpentForCategory [foodTx, grocTx, strayIncomeTx] "food"
      [catFood, catGroceries] 4 2024 }

/-- C5 witness: the "food" budget's view record carries the rollup as
`spent` and its percent lies in `[0, 100]`. -/
theorem C5_budget_aggregation_witness :
    budFoodView.spent
      = calculateSpentForCategory [foodTx, grocTx, strayIncomeTx] "food"
          [catFood, catGroceries] 4 2024
    ∧ 0 ≤ percentUsed budFoodView ∧ percentUsed budFoodView ≤ 100 := by
  have h := C5_budget_aggregation [budFood] [foodTx, grocTx, strayIncomeTx]
    [catFood, catGroceries] 4 2024 budFoodView
    (by simp [budgetsWithSpending, budFood, budFoodView])
    (by intro tx htx
        simp only [List.mem_cons, List.not_mem_nil, or_false] at htx
        rcases htx with rfl | rfl | rfl <;> norm_num [foodTx, grocTx, strayIncomeTx])
  exact ⟨h.1, h.2.2.1, h.2.2.2.1⟩

/-- Sample account for the C2 witness: a credit card with opening balance 0. -/
def ccSampleAccount : Account :=
  { id := "cc", name := "Card", type := AccountType.CREDIT_CARD,
    openingBalance := 0, currentBalance := 0, status := AccountStatus.ACTIVE,
    dueDate := none }

/-- Sample transaction for the C2 witness: an INCOME (card payment) of 500. -/
def ccSamplePayment : Transaction :=
  { id := "t1", date := { time := 0, month := 0, year := 2024 }, amount := 500,
    type := TransactionType.INCOME, fromAccountId := "cc", toAccountId := none,
    categoryId := none, subCategoryId := none, notes := "" }

/-- C2 witness: the spec's credit-card scenario — a card with opening
balance 0 and one INCOME (payment) of 500 ends at balance `min (0+500) 0 = 0 ≤ 0`. -/
theorem C2_credit_card_clamp_witness :
    applyTx ccSampleAccount 0 ccSamplePayment ≤ 0
    ∧ accountBalance ccSampleAccount [ccSamplePayment] ≤ 0 := by
  constructor
  · exact (C2_credit_card_clamp ccSampleAccount rfl).1 0 ccSamplePayment (Or.inl rfl)
  · exact (C2_credit_card_clamp ccSampleAccount rfl).2 [ccSamplePayment] [] ccSamplePayment
      (by simp [sortedTxs, relevantTxs, isRelevant, ccSampleAccount, ccSamplePayment])
      (Or.inl rfl)

/-- Sample account for the C9 witness: a SAVINGS account `a2`. -/
def savSampleAccount : Account :=
  { id := "a2", name := "Sav", type := AccountType.SAVINGS,
    openingBalance := 100, currentBalance := 100, status := AccountStatus.ACTIVE,
    dueDate := none }

/-- Sample transaction for the C9 witness: an EXPENSE whose destination is
`a2` but whose source is a different account. -/
def strayExpenseTx : Transaction :=
  { id := "e1", date := { time := 0, month := 0, year := 2024 }, amount := 30,
    type := TransactionType.EXPENSE, fromAccountId := "a1", toAccountId := some "a2",
    categoryId := none, subCategoryId := none, notes := "" }

/-- C9 witness: for a SAVINGS account `a2`, an EXPENSE whose `toAccountId`
is `a2` (source elsewhere) is in `a2`'s relevant set and subtracts its amount. -/
theorem C9_role_ignored_witness :
    strayExpenseTx ∈ relevantTxs savSampleAccount [strayExpenseTx]
    ∧ applyTx savSampleAccount 100 strayExpenseTx = 100 - 30 := by
  constructor
  · exact (C9_role_ignored_for_non_transfers savSampleAccount 100 strayExpenseTx
      [strayExpenseTx] rfl (by decide) (by simp)).1
  · exact (C9_role_ignored_for_non_transfers savSampleAccount 100 strayExpenseTx
      [strayExpenseTx] rfl (by decide) (by simp)).2.1 rfl

end MoneyManager
